import Mathlib

/-!
Shallow embedding of the timer-core repository (Go).

Source files embedded:
  * the timer engine (package timer: `State`, `operation`, `Config` flags,
    `Timer`, `New`, `SetUpdateInterval`, `StartTimer`, `StopTimer`,
    `ResetTimer`, `PauseTimer`, `ResumeTimer`, `resumeAfterStop`,
    `resumeAfterPause`, `timerLoop`, `checkValidState`);
  * subtimer.go (`subtimer`, `AddSubTimer`, `StopSubTimer`,
    `checkSubTimerFinish`, `startSubTimers`).

Modelling choices:
  * `time.Time` instants and `time.Duration` values are both embedded as
    `Int` (Go stores both as int64 nanosecond counts; the claims never
    reach the int64 overflow boundary, so plain integers are faithful).
  * `time.Now()` is passed explicitly as a `now : Int` argument to each
    operation that reads the clock.
  * `*time.Ticker` fields are embedded as a three-valued `TickerState`
    (nil pointer / running / stopped); `Ticker.Stop` is only reached
    under state guards that guarantee a non-nil ticker.
  * The Go methods mutate the receiver and return an `error`; here each
    operation returns the updated `Timer` paired with `Option TError`
    (`none` = Go `nil` error). An early `return fmt.Errorf(...)` before
    any field assignment is therefore `(t, some e)` with `t` unchanged.
  * The `Updates chan time.Duration` field is not part of the record; one
    iteration of the goroutine body `timerLoop` is embedded as `timerTick`,
    whose optional `Int` result is the value the iteration sends on the
    channel (`none` = nothing sent). The `go ...` spawns in `StartTimer`
    and `resumeAfterPause` are represented by the caller of the model
    invoking `timerTick` at later instants.
  * The Go map `map[int]*subtimer` is embedded as an association list
    `List (Int × subtimer)` with `lookupSub` / `updateSub` for indexing
    and for mutation through the stored pointer.
  * The error messages produced with `fmt.Errorf` are abstracted to the
    spec's error taxonomy `TError`; each constructor is tied to the exact
    message it stands for in its doc comment.
-/

namespace TimerCore

/-- Go `type State int` with the four constants `Reset`, `Running`,
`Paused`, `Stopped`. -/
inductive State where
  | Reset
  | Running
  | Paused
  | Stopped
deriving DecidableEq

/-- Go `type operation int` with the five constants `resetOp`, `startOp`,
`pauseOp`, `resumeOp`, `stopOp`. (The Go type is an int, but only these
five values occur in the program.) -/
inductive operation where
  | resetOp
  | startOp
  | pauseOp
  | resumeOp
  | stopOp
deriving DecidableEq

/-- The spec's error taxonomy (§7), standing for the `fmt.Errorf` results:
  * `invalidStateTransition`: "... called with invalid state",
    "UpdateInterval can only be changed when timer is stopped",
    "Subtimer can only be added when timer is in reset state";
  * `invalidConfigValue`: "Only positive values for updateInterval are allowed";
  * `duplicateIdentifier`: "Subtimer with key %v already exists";
  * `unknownIdentifier`: "Subtimer with id %v does not exist". -/
inductive TError where
  | invalidStateTransition
  | invalidConfigValue
  | duplicateIdentifier
  | unknownIdentifier
deriving DecidableEq

/-- A `*time.Ticker` field: nil pointer, running ticker, or stopped ticker. -/
inductive TickerState where
  | nil
  | running
  | stopped
deriving DecidableEq

/-- Go `Ticker.Stop()`. Only reached with a non-nil receiver in this
program (guarded by `checkValidState`). -/
def tickerStop (_ : TickerState) : TickerState := .stopped

/-- subtimer.go: `type subtimer struct { Time time.Duration; state State }`. -/
structure subtimer where
  Time  : Int
  state : State
deriving DecidableEq

/-- Go `const defaultUpdateInterval = 10`. -/
def defaultUpdateInterval : Int := 10

/-- Go `const defaultTickerInterval = 10`. -/
def defaultTickerInterval : Int := 10

/-- The `Timer` struct. Field names follow the Go struct; the engine file
declares the third flag as `stopOnSubtimersStop` while subtimer.go reads
it as `stopOnSubtimersFinish` (the spec's name); we use the latter. The
`Updates` channel is modelled by `timerTick`'s emission result instead of
a field. -/
structure Timer where
  updateInterval : Int
  tickerInterval : Int
  ticker : TickerState
  updateTicker : TickerState
  State : State
  startTime : Int
  elapsed : Int
  pauseTime : Int
  subtimers : List (Int × subtimer)
  allowResumeAfterStop : Bool
  continueCountingWhenStopped : Bool
  stopOnSubtimersFinish : Bool
deriving DecidableEq

/-- Go map indexing `t.subtimers[id]` (comma-ok form). -/
def lookupSub (reg : List (Int × subtimer)) (id : Int) : Option subtimer :=
  match reg with
  | [] => none
  | p :: rest => if p.1 = id then some p.2 else lookupSub rest id

/-- Mutation of a registry entry through the stored `*subtimer` pointer
(`s.state = ...; s.Time = ...` where `s` was obtained by lookup). -/
def updateSub (reg : List (Int × subtimer)) (id : Int) (s : subtimer) :
    List (Int × subtimer) :=
  reg.map (fun p => if p.1 = id then (p.1, s) else p)

/-- Go map insertion `t.subtimers[id] = &s` for an id not yet present. -/
def insertSub (reg : List (Int × subtimer)) (id : Int) (s : subtimer) :
    List (Int × subtimer) :=
  (id, s) :: reg

/-- `func New() *Timer`: zero value for every field not set explicitly. -/
def New : Timer :=
  { updateInterval := defaultUpdateInterval
    tickerInterval := defaultTickerInterval
    ticker := .nil
    updateTicker := .nil
    State := .Stopped
    startTime := 0
    elapsed := 0
    pauseTime := 0
    subtimers := []
    allowResumeAfterStop := false
    continueCountingWhenStopped := false
    stopOnSubtimersFinish := false }

/-- `func (t *Timer) checkValidState(op operation) bool`. -/
def checkValidState (t : Timer) (op : operation) : Bool :=
  match op with
  | .resetOp => t.State = .Stopped
  | .startOp => t.State = .Reset
  | .pauseOp => t.State = .Running
  | .resumeOp => t.State = .Paused || (t.State = .Stopped && t.allowResumeAfterStop)
  | .stopOp => t.State = .Running || t.State = .Paused

/-- `func (t *Timer) SetUpdateInterval(updateInterval int) error`. -/
def SetUpdateInterval (t : Timer) (updateInterval : Int) :
    Timer × Option TError :=
  if t.State ≠ .Stopped then (t, some .invalidStateTransition)
  else if updateInterval < 0 then (t, some .invalidConfigValue)
  else if updateInterval = 0 then
    ({ t with updateInterval := defaultUpdateInterval }, none)
  else ({ t with updateInterval := updateInterval }, none)

/-- subtimer.go `func (t *Timer) startSubTimers()`: transitions every
registered subtimer to Running; early return when the registry is empty. -/
def startSubTimers (t : Timer) : Timer :=
  if t.subtimers.length ≤ 0 then t
  else { t with subtimers :=
          t.subtimers.map (fun p => (p.1, { p.2 with state := .Running })) }

/-- `func (t *Timer) StartTimer() error`. The `go t.startSubTimers()` and
`go t.timerLoop()` spawns are modelled by applying `startSubTimers`
synchronously and by the caller invoking `timerTick` at later instants. -/
def StartTimer (t : Timer) (now : Int) : Timer × Option TError :=
  if ¬ checkValidState t .startOp then (t, some .invalidStateTransition)
  else
    let t1 := { t with State := .Running, ticker := .running,
                       updateTicker := .running, startTime := now }
    (startSubTimers t1, none)

/-- `func (t *Timer) StopTimer() error`. -/
def StopTimer (t : Timer) : Timer × Option TError :=
  if ¬ checkValidState t .stopOp then (t, some .invalidStateTransition)
  else ({ t with State := .Stopped, ticker := tickerStop t.ticker,
                 updateTicker := tickerStop t.updateTicker }, none)

/-- `func (t *Timer) ResetTimer() error`: fresh empty registry, state
Reset, both ticker pointers set to nil. -/
def ResetTimer (t : Timer) : Timer × Option TError :=
  if ¬ checkValidState t .resetOp then (t, some .invalidStateTransition)
  else ({ t with subtimers := [], State := .Reset, ticker := .nil,
                 updateTicker := .nil }, none)

/-- `func (t *Timer) PauseTimer() error`. -/
def PauseTimer (t : Timer) (now : Int) : Timer × Option TError :=
  if ¬ checkValidState t .pauseOp then (t, some .invalidStateTransition)
  else ({ t with State := .Paused, pauseTime := now }, none)

/-- `func (t *Timer) resumeAfterStop()`: the body is empty in the source. -/
def resumeAfterStop (t : Timer) : Timer := t

/-- `func (t *Timer) resumeAfterPause()`:
`t.startTime = t.startTime.Add(time.Since(t.pauseTime)); t.State = Running`
(plus a `go t.timerLoop()` spawn, modelled by later `timerTick` calls). -/
def resumeAfterPause (t : Timer) (now : Int) : Timer :=
  { t with startTime := t.startTime + (now - t.pauseTime), State := .Running }

/-- `func (t *Timer) ResumeTimer() error`: branches on the state directly
(it does not call `checkValidState`) and returns nil on every path. -/
def ResumeTimer (t : Timer) (now : Int) : Timer × Option TError :=
  if t.State = .Paused then (resumeAfterPause t now, none)
  else if t.State = .Stopped ∧ t.allowResumeAfterStop then
    (resumeAfterStop t, none)
  else (t, none)

/-- One iteration of `func (t *Timer) timerLoop()` on a ticker fire at
instant `now`: when Running, recompute `elapsed = now - startTime` and
send it on the `Updates` channel (the `Option Int` result); otherwise do
nothing. -/
def timerTick (t : Timer) (now : Int) : Timer × Option Int :=
  if t.State = .Running then
    let e := now - t.startTime
    ({ t with elapsed := e }, some e)
  else (t, none)

/-- subtimer.go `func (t *Timer) AddSubTimer(id int) error`. The inserted
record is `subtimer{}` with `s.state = Reset`, i.e. `⟨0, Reset⟩`. -/
def AddSubTimer (t : Timer) (id : Int) : Timer × Option TError :=
  if t.State ≠ .Reset then (t, some .invalidStateTransition)
  else if (lookupSub t.subtimers id).isSome then (t, some .duplicateIdentifier)
  else ({ t with subtimers := insertSub t.subtimers id ⟨0, .Reset⟩ }, none)

/-- subtimer.go `func (t *Timer) checkSubTimerFinish() bool`. -/
def checkSubTimerFinish (t : Timer) : Bool :=
  t.subtimers.all (fun p => p.2.state = .Stopped)

/-- subtimer.go `func (t *Timer) StopSubTimer(id int) (time.Duration, error)`.
The body's `if t.State == Running && s.state == Running { }` block is
empty in the source and has no effect. The triggered `t.StopTimer()` call
discards its error (the statement ignores the return value), so only the
timer component of `StopTimer` is kept. -/
def StopSubTimer (t : Timer) (id : Int) : Timer × Int × Option TError :=
  match lookupSub t.subtimers id with
  | none => (t, 0, some .unknownIdentifier)
  | some _ =>
    let t1 := { t with subtimers :=
                  updateSub t.subtimers id ⟨t.elapsed, .Stopped⟩ }
    let t2 := if t1.stopOnSubtimersFinish ∧ checkSubTimerFinish t1 then
                (StopTimer t1).1
              else t1
    (t2, t.elapsed, none)

/-- Dispatcher from the `operation` constants to the public transition
operation each one guards in `checkValidState`. -/
def applyOp (t : Timer) (op : operation) (now : Int) : Timer × Option TError :=
  match op with
  | .resetOp => ResetTimer t
  | .startOp => StartTimer t now
  | .pauseOp => PauseTimer t now
  | .resumeOp => ResumeTimer t now
  | .stopOp => StopTimer t

/-! Concrete timers used to instantiate the theorems. -/

/-- A timer observed mid-run: what `New` becomes after `ResetTimer` and
`StartTimer` at instant 0. -/
def runningTimer : Timer :=
  { New with State := .Running, ticker := .running, updateTicker := .running }

/-- A freshly reset timer. -/
def resetTimer : Timer := { New with State := .Reset }

/-- A stopped timer whose config allows resuming after stop. -/
def stoppedResumable : Timer := { New with allowResumeAfterStop := true }

/-- A paused timer: paused at instant 40 after starting at instant 0. -/
def pausedTimer : Timer :=
  { New with State := .Paused, ticker := .running, updateTicker := .running,
             pauseTime := 40 }

/-- A running timer with the stop-on-subtimers-finish flag and two
subtimers (ids 1 and 2), both Running. -/
def twoSubFlag : Timer :=
  { runningTimer with stopOnSubtimersFinish := true,
                      subtimers := [(1, ⟨0, .Running⟩), (2, ⟨0, .Running⟩)] }

/-- Same two-subtimer running timer with the flag disabled. -/
def twoSubNoFlag : Timer :=
  { runningTimer with subtimers := [(1, ⟨0, .Running⟩), (2, ⟨0, .Running⟩)] }

/-- A stopped timer with one registered subtimer (id 7) and a nonzero
elapsed value. -/
def oneSubStopped : Timer :=
  { New with elapsed := 25, subtimers := [(7, ⟨0, .Running⟩)] }

/-- A reset timer holding one subtimer with id 3. -/
def resetWithSub : Timer :=
  { resetTimer with subtimers := [(3, ⟨0, .Reset⟩)] }

/-- A reset timer with the stop-on-subtimers-finish flag and one
subtimer (id 4) still in Reset state. -/
def resetSubFlag : Timer :=
  { resetTimer with stopOnSubtimersFinish := true,
                    subtimers := [(4, ⟨0, .Reset⟩)] }

/-- The parent timer as `StopSubTimer` leaves it just before the feedback
check: the entry `id` overwritten with `⟨t.elapsed, Stopped⟩`. -/
def withStoppedSub (t : Timer) (id : Int) : Timer :=
  { t with subtimers := updateSub t.subtimers id ⟨t.elapsed, .Stopped⟩ }

/-! Helper lemmas shared across the claims. -/

theorem startSubTimers_State (t : Timer) :
    (startSubTimers t).State = t.State := by
  unfold startSubTimers; split <;> rfl

theorem startSubTimers_startTime (t : Timer) :
    (startSubTimers t).startTime = t.startTime := by
  unfold startSubTimers; split <;> rfl

theorem StopTimer_subtimers (t : Timer) :
    ((StopTimer t).1).subtimers = t.subtimers := by
  unfold StopTimer; split <;> rfl

theorem StopSubTimer_found (t : Timer) (id : Int) (s : subtimer)
    (hs : lookupSub t.subtimers id = some s) :
    StopSubTimer t id =
      (if (withStoppedSub t id).stopOnSubtimersFinish ∧
          checkSubTimerFinish (withStoppedSub t id) then
         (StopTimer (withStoppedSub t id)).1
       else withStoppedSub t id, t.elapsed, none) := by
  unfold StopSubTimer withStoppedSub
  rw [hs]

theorem lookupSub_updateSub (reg : List (Int × subtimer)) (id : Int)
    (s : subtimer) (h : (lookupSub reg id).isSome) :
    lookupSub (updateSub reg id s) id = some s := by
  induction reg with
  | nil => simp [lookupSub] at h
  | cons p rest ih =>
    by_cases hp : p.1 = id
    · simp [lookupSub, updateSub, hp]
    · simp [lookupSub, updateSub, hp] at h ⊢
      exact ih h

/-- C1 counterexample: `ResumeTimer` invoked on a Running timer is outside
its precondition (`checkValidState` for the resume operation is false),
yet it returns success (`none`) instead of an `InvalidStateTransition`
error, refuting the claim that every transition operation fails with that
error outside its precondition state. -/
theorem C1_counterexample :
    checkValidState runningTimer .resumeOp = false ∧
    applyOp runningTimer .resumeOp 5 = (runningTimer, none) ∧
    (applyOp runningTimer .resumeOp 5).2 ≠ some TError.invalidStateTransition := by
  decide

/-- C1 (amended): for every transition operation invoked on a timer
outside the operation's precondition state, the timer is left completely
unchanged; StartTimer, PauseTimer, StopTimer and ResetTimer additionally
fail with an `InvalidStateTransition` error, while ResumeTimer instead
returns success as a silent no-op. -/
theorem C1_invalid_op_is_frame (t : Timer) (now : Int) (op : operation)
    (h : checkValidState t op = false) :
    applyOp t op now =
      (t, if op = .resumeOp then none
          else some TError.invalidStateTransition) := by
  cases op <;>
    simp_all [applyOp, ResetTimer, StartTimer, PauseTimer, ResumeTimer,
      StopTimer, checkValidState]

/-- C1 witness: starting a Stopped timer is outside the Start
precondition and fails with `InvalidStateTransition`, unchanged. -/
theorem C1_witness :
    checkValidState New .startOp = false ∧
    applyOp New .startOp 0 = (New, some TError.invalidStateTransition) := by
  refine ⟨by decide, ?_⟩
  have h := C1_invalid_op_is_frame New 0 .startOp (by decide)
  simpa using h

/-- C3: on a Stopped timer with `allowResumeAfterStop` set, the resume
precondition holds and `ResumeTimer` succeeds, but the timer stays in
`Stopped` with every field unchanged: `resumeAfterStop` has an empty body,
so the code never reaches the Running postcondition the claim states. -/
theorem C3_resume_after_stop_is_stub :
    stoppedResumable.State = .Stopped ∧
    stoppedResumable.allowResumeAfterStop = true ∧
    checkValidState stoppedResumable .resumeOp = true ∧
    ResumeTimer stoppedResumable 5 = (stoppedResumable, none) ∧
    (ResumeTimer stoppedResumable 5).1.State = .Stopped := by
  decide

/-- C9: calling `ResumeTimer` on a timer that is Running, Reset, or
Stopped without `allowResumeAfterStop` returns success (nil error) and
leaves every field of the timer unchanged — a silent no-op. -/
theorem C9_resume_silent_noop (t : Timer) (now : Int)
    (h : t.State = .Running ∨ t.State = .Reset ∨
         (t.State = .Stopped ∧ t.allowResumeAfterStop = false)) :
    ResumeTimer t now = (t, none) := by
  rcases h with h | h | ⟨h1, h2⟩
  · simp [ResumeTimer, h]
  · simp [ResumeTimer, h]
  · simp [ResumeTimer, h1, h2]

/-- C9 witness: resuming a freshly reset timer is a successful no-op. -/
theorem C9_witness :
    resetTimer.State = .Reset ∧
    ResumeTimer resetTimer 3 = (resetTimer, none) :=
  ⟨rfl, C9_resume_silent_noop resetTimer 3 (Or.inr (Or.inl rfl))⟩

/-- C4: resuming a Paused timer shifts `startTime` forward by exactly the
paused duration `now - pauseTime` and sets the state to Running; hence a
timer started at `n0` that runs for `a`, pauses for `b`, resumes, and is
sampled `c` after the resume computes elapsed exactly `a + c`, excluding
the paused interval. -/
theorem C4_pause_resume_elapsed (t u : Timer) (now n0 a b c : Int)
    (ht : t.State = .Paused) (hu : u.State = .Reset) :
    (ResumeTimer t now).1.startTime = t.startTime + (now - t.pauseTime) ∧
    (ResumeTimer t now).1.State = .Running ∧
    (ResumeTimer t now).2 = none ∧
    (timerTick ((ResumeTimer ((PauseTimer ((StartTimer u n0).1)
        (n0 + a)).1) (n0 + a + b)).1) (n0 + a + b + c)).2 = some (a + c) := by
  refine ⟨?_, ?_, ?_, ?_⟩
  · simp [ResumeTimer, resumeAfterPause, ht]
  · simp [ResumeTimer, resumeAfterPause, ht]
  · simp [ResumeTimer, ht]
  · simp [StartTimer, checkValidState, hu, PauseTimer, ResumeTimer,
      resumeAfterPause, timerTick, startSubTimers_State,
      startSubTimers_startTime]
    omega

/-- C4 witness: start at 0, pause at 40, resume at 100, sample at 125;
the elapsed value is 40 + 25 = 65. -/
theorem C4_witness :
    pausedTimer.State = .Paused ∧ resetTimer.State = .Reset ∧
    (ResumeTimer pausedTimer 100).1.startTime =
      pausedTimer.startTime + (100 - pausedTimer.pauseTime) ∧
    (timerTick ((ResumeTimer ((PauseTimer ((StartTimer resetTimer 0).1)
        (0 + 40)).1) (0 + 40 + 60)).1) (0 + 40 + 60 + 25)).2 =
      some (40 + 25) :=
  ⟨rfl, rfl,
   (C4_pause_resume_elapsed pausedTimer resetTimer 100 0 40 60 25 rfl rfl).1,
   (C4_pause_resume_elapsed pausedTimer resetTimer 100 0 40 60 25
      rfl rfl).2.2.2⟩

/-- C7 counterexample: on a Running timer with the negative argument -1,
`SetUpdateInterval` fails with the invalid-state error, not with
`InvalidConfigValue`: the state check precedes the sign check, refuting
"fails with InvalidConfigValue for every negative v". -/
theorem C7_counterexample :
    runningTimer.State ≠ .Stopped ∧ (-1 : Int) < 0 ∧
    SetUpdateInterval runningTimer (-1) =
      (runningTimer, some TError.invalidStateTransition) ∧
    (SetUpdateInterval runningTimer (-1)).2 ≠
      some TError.invalidConfigValue := by
  decide

/-- C7 (amended): whenever the state is not Stopped, `SetUpdateInterval`
fails with `InvalidStateTransition` for every argument, the interval
unchanged (the state check takes precedence over the sign check); when
Stopped, a negative argument fails with `InvalidConfigValue`, zero resets
the interval to the default constant, and a positive argument is stored. -/
theorem C7_set_update_interval (t : Timer) (v : Int) :
    (t.State ≠ .Stopped →
        SetUpdateInterval t v = (t, some TError.invalidStateTransition)) ∧
    (t.State = .Stopped → v < 0 →
        SetUpdateInterval t v = (t, some TError.invalidConfigValue)) ∧
    (t.State = .Stopped →
        SetUpdateInterval t 0 =
          ({ t with updateInterval := defaultUpdateInterval }, none)) ∧
    (t.State = .Stopped → 0 < v →
        SetUpdateInterval t v = ({ t with updateInterval := v }, none)) := by
  refine ⟨?_, ?_, ?_, ?_⟩
  · intro h; simp [SetUpdateInterval, h]
  · intro h hv; simp [SetUpdateInterval, h, hv]
  · intro h; simp [SetUpdateInterval, h]
  · intro h hv
    have h1 : ¬ v < 0 := by omega
    have h2 : ¬ v = 0 := by omega
    simp [SetUpdateInterval, h, h1, h2]

/-- C7 witness: concrete instances of all four clauses (Running timer
with 4; Stopped timer with -1, 0 and 5). -/
theorem C7_witness :
    SetUpdateInterval runningTimer 4 =
      (runningTimer, some TError.invalidStateTransition) ∧
    SetUpdateInterval New (-1) = (New, some TError.invalidConfigValue) ∧
    SetUpdateInterval New 0 =
      ({ New with updateInterval := defaultUpdateInterval }, none) ∧
    SetUpdateInterval New 5 = ({ New with updateInterval := 5 }, none) :=
  ⟨(C7_set_update_interval runningTimer 4).1 (by decide),
   (C7_set_update_interval New (-1)).2.1 rfl (by decide),
   (C7_set_update_interval New 0).2.2.1 rfl,
   (C7_set_update_interval New 5).2.2.2 rfl (by decide)⟩

/-- C8: while Running, a tick at `n1` emits elapsed `n1 - startTime` and a
following tick at `n2 ≥ n1` emits `n2 - startTime`, which is at least the
first value — successive emitted values are non-decreasing; while Paused
or Stopped, a tick leaves the timer unchanged and emits nothing, so
`elapsed` is frozen. -/
theorem C8_monotone_frozen (t : Timer) (n1 n2 : Int) (h : n1 ≤ n2) :
    (t.State = .Running →
       (timerTick t n1).2 = some (n1 - t.startTime) ∧
       (timerTick (timerTick t n1).1 n2).2 = some (n2 - t.startTime) ∧
       n1 - t.startTime ≤ n2 - t.startTime) ∧
    ((t.State = .Paused ∨ t.State = .Stopped) →
       timerTick t n1 = (t, none)) := by
  constructor
  · intro hr
    refine ⟨by simp [timerTick, hr], by simp [timerTick, hr], by omega⟩
  · rintro (hp | hp) <;> simp [timerTick, hp]

/-- C8 witness: two ticks of a running timer emit 3 then 7; a tick of a
Stopped timer changes nothing and emits nothing. -/
theorem C8_witness :
    (3 : Int) ≤ 7 ∧
    (timerTick runningTimer 3).2 = some (3 - runningTimer.startTime) ∧
    (timerTick (timerTick runningTimer 3).1 7).2 =
      some (7 - runningTimer.startTime) ∧
    timerTick New 3 = (New, none) :=
  ⟨by decide,
   ((C8_monotone_frozen runningTimer 3 7 (by decide)).1 rfl).1,
   ((C8_monotone_frozen runningTimer 3 7 (by decide)).1 rfl).2.1,
   (C8_monotone_frozen New 3 3 (by decide)).2 (Or.inr rfl)⟩

/-- C5: `StopSubTimer` on an absent identifier fails with
`UnknownIdentifier` and a zero duration, the timer unchanged; on a present
identifier — whatever the parent's and the subtimer's states — it
succeeds, returns the parent's current `elapsed` as the snapshot, and the
registry entry becomes `⟨parent.elapsed, Stopped⟩`. -/
theorem C5_stop_subtimer (t : Timer) (id : Int) :
    (lookupSub t.subtimers id = none →
       StopSubTimer t id = (t, 0, some TError.unknownIdentifier)) ∧
    ((lookupSub t.subtimers id).isSome →
       (StopSubTimer t id).2.2 = none ∧
       (StopSubTimer t id).2.1 = t.elapsed ∧
       lookupSub ((StopSubTimer t id).1).subtimers id =
         some ⟨t.elapsed, .Stopped⟩) := by
  constructor
  · intro h; simp [StopSubTimer, h]
  · intro h
    obtain ⟨s, hs⟩ := Option.isSome_iff_exists.mp h
    have hreg : ((StopSubTimer t id).1).subtimers =
        updateSub t.subtimers id ⟨t.elapsed, .Stopped⟩ := by
      simp only [StopSubTimer, hs]
      split
      · exact StopTimer_subtimers _
      · rfl
    refine ⟨?_, ?_, ?_⟩
    · simp [StopSubTimer, hs]
    · simp [StopSubTimer, hs]
    · rw [hreg]; exact lookupSub_updateSub _ _ _ h

/-- C5 witness: id 1 is absent from a fresh timer's registry; id 7 is
present in `oneSubStopped` (elapsed 25) and stopping it snapshots 25. -/
theorem C5_witness :
    StopSubTimer New 1 = (New, 0, some TError.unknownIdentifier) ∧
    (StopSubTimer oneSubStopped 7).2.1 = oneSubStopped.elapsed ∧
    lookupSub ((StopSubTimer oneSubStopped 7).1).subtimers 7 =
      some ⟨oneSubStopped.elapsed, .Stopped⟩ :=
  ⟨(C5_stop_subtimer New 1).1 rfl,
   ((C5_stop_subtimer oneSubStopped 7).2 (by decide)).2.1,
   ((C5_stop_subtimer oneSubStopped 7).2 (by decide)).2.2⟩

/-- C6: `AddSubTimer` fails with the state error unless the parent is
Reset; with a duplicate id in the current registry generation it fails
with `DuplicateIdentifier`; otherwise it inserts a record in Reset state
with a zero snapshot; and after every successful `ResetTimer` the
registry is a new empty mapping. -/
theorem C6_add_subtimer_reset (t : Timer) (id : Int) :
    (t.State ≠ .Reset →
       AddSubTimer t id = (t, some TError.invalidStateTransition)) ∧
    (t.State = .Reset → (lookupSub t.subtimers id).isSome →
       AddSubTimer t id = (t, some TError.duplicateIdentifier)) ∧
    (t.State = .Reset → lookupSub t.subtimers id = none →
       (AddSubTimer t id).2 = none ∧
       lookupSub ((AddSubTimer t id).1).subtimers id = some ⟨0, .Reset⟩) ∧
    ((ResetTimer t).2 = none → ((ResetTimer t).1).subtimers = []) := by
  refine ⟨?_, ?_, ?_, ?_⟩
  · intro h; simp [AddSubTimer, h]
  · intro h hdup; simp [AddSubTimer, h, hdup]
  · intro h habs
    simp [AddSubTimer, h, habs, insertSub, lookupSub]
  · intro h
    by_cases hg : checkValidState t .resetOp = true
    · simp [ResetTimer, hg]
    · simp [ResetTimer, hg] at h

/-- C6 witness: adding to a Stopped timer fails; re-adding id 3 to a
Reset timer already holding it fails as a duplicate; adding id 9 to an
empty Reset registry succeeds with a Reset-state record; resetting a
Stopped timer empties the registry. -/
theorem C6_witness :
    AddSubTimer New 9 = (New, some TError.invalidStateTransition) ∧
    AddSubTimer resetWithSub 3 =
      (resetWithSub, some TError.duplicateIdentifier) ∧
    (AddSubTimer resetTimer 9).2 = none ∧
    lookupSub ((AddSubTimer resetTimer 9).1).subtimers 9 =
      some ⟨0, .Reset⟩ ∧
    ((ResetTimer New).1).subtimers = [] :=
  ⟨(C6_add_subtimer_reset New 9).1 (by decide),
   (C6_add_subtimer_reset resetWithSub 3).2.1 rfl (by decide),
   ((C6_add_subtimer_reset resetTimer 9).2.2.1 rfl rfl).1,
   ((C6_add_subtimer_reset resetTimer 9).2.2.1 rfl rfl).2,
   (C6_add_subtimer_reset New 9).2.2.2 (by decide)⟩

/-- C2: with `stopOnSubtimersFinish` enabled, a Running parent and two
running subtimers `i ≠ j`, stopping both in either order leaves the
parent Running after the first call and Stopped after the second — the
parent's stop is triggered exactly once, by the second call; with the
flag disabled the parent is still Running after both stops, in either
order. -/
theorem C2_feedback_stop (t : Timer) (i j : Int) (s1 s2 : subtimer)
    (hne : ¬ i = j) (hreg : t.subtimers = [(i, s1), (j, s2)])
    (hrun : t.State = .Running)
    (hs1 : s1.state = .Running) (hs2 : s2.state = .Running) :
    (t.stopOnSubtimersFinish = true →
       ((StopSubTimer t i).1).State = .Running ∧
       ((StopSubTimer (StopSubTimer t i).1 j).1).State = .Stopped ∧
       ((StopSubTimer t j).1).State = .Running ∧
       ((StopSubTimer (StopSubTimer t j).1 i).1).State = .Stopped) ∧
    (t.stopOnSubtimersFinish = false →
       ((StopSubTimer (StopSubTimer t i).1 j).1).State = .Running ∧
       ((StopSubTimer (StopSubTimer t j).1 i).1).State = .Running) := by
  have hni : ¬ j = i := fun h => hne h.symm
  have h1 : StopSubTimer t i =
      ({ t with subtimers := [(i, ⟨t.elapsed, .Stopped⟩), (j, s2)] },
       t.elapsed, none) := by
    simp [StopSubTimer, hreg, lookupSub, updateSub, checkSubTimerFinish,
      hne, hni, hs2]
  have h1' : StopSubTimer t j =
      ({ t with subtimers := [(i, s1), (j, ⟨t.elapsed, .Stopped⟩)] },
       t.elapsed, none) := by
    simp [StopSubTimer, hreg, lookupSub, updateSub, checkSubTimerFinish,
      hne, hni, hs1]
  constructor
  · intro hf
    refine ⟨?_, ?_, ?_, ?_⟩
    · rw [h1]; exact hrun
    · rw [h1]
      simp [StopSubTimer, lookupSub, updateSub, checkSubTimerFinish,
        hne, hni, hf, StopTimer, checkValidState, hrun]
    · rw [h1']; exact hrun
    · rw [h1']
      simp [StopSubTimer, lookupSub, updateSub, checkSubTimerFinish,
        hne, hni, hf, StopTimer, checkValidState, hrun]
  · intro hf
    constructor
    · rw [h1]
      simp [StopSubTimer, lookupSub, updateSub, checkSubTimerFinish,
        hne, hni, hf, hrun]
    · rw [h1']
      simp [StopSubTimer, lookupSub, updateSub, checkSubTimerFinish,
        hne, hni, hf, hrun]

/-- C2 witness: the concrete two-subtimer timers with ids 1 and 2, flag
enabled and disabled. -/
theorem C2_witness :
    ((StopSubTimer twoSubFlag 1).1).State = .Running ∧
    ((StopSubTimer (StopSubTimer twoSubFlag 1).1 2).1).State = .Stopped ∧
    ((StopSubTimer (StopSubTimer twoSubFlag 2).1 1).1).State = .Stopped ∧
    ((StopSubTimer (StopSubTimer twoSubNoFlag 1).1 2).1).State = .Running ∧
    ((StopSubTimer (StopSubTimer twoSubNoFlag 2).1 1).1).State = .Running :=
  ⟨((C2_feedback_stop twoSubFlag 1 2 ⟨0, .Running⟩ ⟨0, .Running⟩
      (by decide) rfl rfl rfl rfl).1 rfl).1,
   ((C2_feedback_stop twoSubFlag 1 2 ⟨0, .Running⟩ ⟨0, .Running⟩
      (by decide) rfl rfl rfl rfl).1 rfl).2.1,
   ((C2_feedback_stop twoSubFlag 1 2 ⟨0, .Running⟩ ⟨0, .Running⟩
      (by decide) rfl rfl rfl rfl).1 rfl).2.2.2,
   ((C2_feedback_stop twoSubNoFlag 1 2 ⟨0, .Running⟩ ⟨0, .Running⟩
      (by decide) rfl rfl rfl rfl).2 rfl).1,
   ((C2_feedback_stop twoSubNoFlag 1 2 ⟨0, .Running⟩ ⟨0, .Running⟩
      (by decide) rfl rfl rfl rfl).2 rfl).2⟩

/-- C10: when the flag is set and this `StopSubTimer` call makes every
registered subtimer Stopped while the parent is Reset or Stopped, the
triggered `StopTimer` fails with `InvalidStateTransition` and that error
is discarded: `StopSubTimer` returns the elapsed snapshot with success,
and the parent timer is unchanged apart from the stopped registry entry. -/
theorem C10_discarded_stop_error (t : Timer) (id : Int)
    (hflag : t.stopOnSubtimersFinish = true)
    (hstate : t.State = .Reset ∨ t.State = .Stopped)
    (hmem : (lookupSub t.subtimers id).isSome)
    (hfin : checkSubTimerFinish (withStoppedSub t id) = true) :
    (StopTimer (withStoppedSub t id)).2 =
      some TError.invalidStateTransition ∧
    StopSubTimer t id = (withStoppedSub t id, t.elapsed, none) := by
  obtain ⟨s, hs⟩ := Option.isSome_iff_exists.mp hmem
  have hguard : checkValidState (withStoppedSub t id) .stopOp = false := by
    rcases hstate with h | h <;> simp [checkValidState, withStoppedSub, h]
  have hstop : StopTimer (withStoppedSub t id) =
      (withStoppedSub t id, some TError.invalidStateTransition) := by
    simp [StopTimer, hguard]
  have hflag2 : (withStoppedSub t id).stopOnSubtimersFinish = true := hflag
  refine ⟨by rw [hstop], ?_⟩
  rw [StopSubTimer_found t id s hs, if_pos ⟨hflag2, hfin⟩, hstop]

/-- C10 witness: a Reset parent with the flag and one Reset subtimer
(id 4): stopping it triggers a failing, discarded `StopTimer`; the parent
stays Reset and the call succeeds with the snapshot. -/
theorem C10_witness :
    (StopTimer (withStoppedSub resetSubFlag 4)).2 =
      some TError.invalidStateTransition ∧
    StopSubTimer resetSubFlag 4 =
      (withStoppedSub resetSubFlag 4, resetSubFlag.elapsed, none) :=
  C10_discarded_stop_error resetSubFlag 4 rfl (Or.inl rfl) (by decide)
    (by decide)

end TimerCore
